import Mathlib

/-!
Verification of the volumetric image adjustment engine (`vmm/adjustment.py`).

The engine is shallowly embedded over exact rationals: every numpy float
computation is modelled as exact arithmetic in `ℚ` (the spec's properties are
stated "up to floating precision", so the exact model is the ideal semantics).
Arrays are lists of rationals tagged with a numpy dtype: a 2D slice is a flat
`List ℚ`, a 3D volume a `List (List ℚ)` of its axis-0 slices.

Two external library primitives are kept abstract, because their pointwise
values are transcendental and no verified property depends on them:
`np.power` (a parameter `rpow : ℚ → ℚ → ℚ`) and `scipy.ndimage.gaussian_filter`
with sigma = 1.0 (parameters `blur2` / `blur3` for the 2D and 3D instances —
note these are genuinely different operators: the 3D blur mixes neighbouring
slices).  Python-level exceptions are modelled with `Except String`:
the precondition `ValueError`, the `ZeroDivisionError` raised by `1.0 / gamma`
at `gamma = 0.0`, and numpy's reduction error on empty arrays.
-/

/-- numpy element dtypes relevant to the engine (8/16/32-bit integers and
floating storage).  In the exact-rational model a floating cast keeps the
value; an integer cast truncates toward zero as numpy `astype` does. -/
inductive Dtype where
  | uint8
  | int8
  | uint16
  | int16
  | int32
  | float32
  | float64
deriving DecidableEq

/-- `np.issubdtype(d, np.integer)`. -/
def Dtype.isInteger : Dtype → Bool
  | .float32 => false
  | .float64 => false
  | _ => true

/-- `np.iinfo(d).min` (only meaningful for the integer dtypes). -/
def Dtype.iinfoMin : Dtype → ℚ
  | .uint8 => 0
  | .int8 => -128
  | .uint16 => 0
  | .int16 => -32768
  | .int32 => -2147483648
  | _ => 0

/-- `np.iinfo(d).max` (only meaningful for the integer dtypes). -/
def Dtype.iinfoMax : Dtype → ℚ
  | .uint8 => 255
  | .int8 => 127
  | .uint16 => 65535
  | .int16 => 32767
  | .int32 => 2147483647
  | _ => 0

/-- Truncation toward zero, the rounding used by numpy `astype` from a
floating value to an integer dtype. -/
def truncQ (q : ℚ) : ℤ :=
  if 0 ≤ q then ⌊q⌋ else ⌈q⌉

/-- `astype(d)` on a single element: integer dtypes truncate toward zero,
floating dtypes keep the (exact-model) value. -/
def Dtype.cast (d : Dtype) (q : ℚ) : ℚ :=
  if d.isInteger then ((truncQ q : ℤ) : ℚ) else q

/-- A 2D numpy array: flattened element list plus dtype tag. -/
structure Arr2 where
  data : List ℚ
  dtype : Dtype
deriving DecidableEq

/-- A 3D numpy array: list of its axis-0 2D slices plus dtype tag. -/
structure Arr3 where
  data : List (List ℚ)
  dtype : Dtype
deriving DecidableEq

/-- `AdjustmentSettings` dataclass: the five adjustment parameters with the
source's defaults. -/
structure AdjustmentSettings where
  brightness : ℚ := 0
  contrast : ℚ := 1
  gamma : ℚ := 1
  sharpness : ℚ := 0
  invert : Bool := false
deriving DecidableEq

/-- `AdjustmentSettings.is_default`: all five fields at their defaults. -/
def AdjustmentSettings.is_default (s : AdjustmentSettings) : Bool :=
  s.brightness == 0 && s.contrast == 1 && s.gamma == 1 &&
    s.sharpness == 0 && !s.invert

/-- `np.clip(x, lo, hi)` on one element. -/
def clip (x lo hi : ℚ) : ℚ :=
  min (max x lo) hi

/-- `np.min` over the flattened elements (numpy raises on an empty array;
theorems about the fallback path carry a nonemptiness hypothesis, so the
junk value returned here for `[]` is never relied upon). -/
def amin : List ℚ → ℚ
  | [] => 0
  | x :: xs => xs.foldl min x

/-- `np.max` over the flattened elements (same remark as `amin`). -/
def amax : List ℚ → ℚ
  | [] => 0
  | x :: xs => xs.foldl max x

/-- `ImageAdjuster.apply_brightness` on a 2D field:
identity at 0, else `clip(image + brightness/100, 0, 1)`. -/
def apply_brightness (image : List ℚ) (brightness : ℚ) : List ℚ :=
  if brightness = 0 then image
  else image.map (fun x => clip (x + brightness / 100) 0 1)

/-- `ImageAdjuster.apply_contrast` on a 2D field:
identity at 1, else `clip((image - 0.5) * contrast + 0.5, 0, 1)`. -/
def apply_contrast (image : List ℚ) (contrast : ℚ) : List ℚ :=
  if contrast = 1 then image
  else image.map (fun x => clip ((x - 1/2) * contrast + 1/2) 0 1)

/-- One element of the gamma stage: `np.power(clip(x, 0, 1), 1/gamma)`,
with `np.power` abstracted as `rpow`. -/
def gammaPix (rpow : ℚ → ℚ → ℚ) (gamma x : ℚ) : ℚ :=
  rpow (clip x 0 1) (1 / gamma)

/-- `ImageAdjuster.apply_gamma` on a 2D field: identity at 1; at `gamma = 0`
the Python expression `1.0 / gamma` raises `ZeroDivisionError`; otherwise
`np.power(clip(image, 0, 1), 1/gamma)`. -/
def apply_gamma (rpow : ℚ → ℚ → ℚ) (image : List ℚ) (gamma : ℚ) :
    Except String (List ℚ) :=
  if gamma = 1 then .ok image
  else if gamma = 0 then .error "ZeroDivisionError: float division by zero"
  else .ok (image.map (gammaPix rpow gamma))

/-- `ImageAdjuster.apply_sharpness` on a 2D field: identity at 0, else the
unsharp mask `clip(image + (sharpness/50) * (image - blur(image)), 0, 1)`
with the abstract sigma-1 Gaussian blur `blur2`. -/
def apply_sharpness (blur2 : List ℚ → List ℚ) (image : List ℚ)
    (sharpness : ℚ) : List ℚ :=
  if sharpness = 0 then image
  else
    (image.zip (blur2 image)).map
      (fun p => clip (p.1 + sharpness / 50 * (p.1 - p.2)) 0 1)

/-- `ImageAdjuster.apply_invert` on a 2D field: identity when not inverting,
else `1 - image`. -/
def apply_invert (image : List ℚ) (invert : Bool) : List ℚ :=
  if invert then image.map (fun x => 1 - x) else image

/-- 3D instance of `apply_brightness` (the source method is numpy-polymorphic
over the array rank; the operation is elementwise). -/
def apply_brightness3 (vol : List (List ℚ)) (brightness : ℚ) :
    List (List ℚ) :=
  if brightness = 0 then vol
  else vol.map (fun sl => sl.map (fun x => clip (x + brightness / 100) 0 1))

/-- 3D instance of `apply_contrast`. -/
def apply_contrast3 (vol : List (List ℚ)) (contrast : ℚ) : List (List ℚ) :=
  if contrast = 1 then vol
  else vol.map (fun sl => sl.map (fun x => clip ((x - 1/2) * contrast + 1/2) 0 1))

/-- 3D instance of `apply_gamma`. -/
def apply_gamma3 (rpow : ℚ → ℚ → ℚ) (vol : List (List ℚ)) (gamma : ℚ) :
    Except String (List (List ℚ)) :=
  if gamma = 1 then .ok vol
  else if gamma = 0 then .error "ZeroDivisionError: float division by zero"
  else .ok (vol.map (fun sl => sl.map (gammaPix rpow gamma)))

/-- 3D instance of `apply_sharpness`; the 3D Gaussian blur `blur3` acts on
the whole volume (it mixes neighbouring slices, unlike `blur2`). -/
def apply_sharpness3 (blur3 : List (List ℚ) → List (List ℚ))
    (vol : List (List ℚ)) (sharpness : ℚ) : List (List ℚ) :=
  if sharpness = 0 then vol
  else
    (vol.zip (blur3 vol)).map
      (fun p => (p.1.zip p.2).map
        (fun q => clip (q.1 + sharpness / 50 * (q.1 - q.2)) 0 1))

/-- 3D instance of `apply_invert`. -/
def apply_invert3 (vol : List (List ℚ)) (invert : Bool) : List (List ℚ) :=
  if invert then vol.map (fun sl => sl.map (fun x => 1 - x)) else vol

/-- One element of the normalization step inlined at lines 205-208 of the
source: `(x - v_min) / (v_max - v_min)`. -/
def normPix (v_min v_max x : ℚ) : ℚ :=
  (x - v_min) / (v_max - v_min)

/-- One element of the denormalization step inlined at line 219 / 269:
`x * (v_max - v_min) + v_min`. -/
def denormPix (v_min v_max x : ℚ) : ℚ :=
  x * (v_max - v_min) + v_min

/-- The normalization block of `apply_to_slice` (source lines 255-258):
all zeros when `v_max == v_min`, else the affine map into `[0,1]`. -/
def normalize2 (v_min v_max : ℚ) (a : List ℚ) : List ℚ :=
  if v_max = v_min then a.map (fun _ => 0)
  else a.map (normPix v_min v_max)

/-- The normalization block of `apply_adjustments` (source lines 205-208). -/
def normalize3 (v_min v_max : ℚ) (d : List (List ℚ)) : List (List ℚ) :=
  if v_max = v_min then d.map (fun sl => sl.map (fun _ => 0))
  else d.map (fun sl => sl.map (normPix v_min v_max))

/-- Denormalization of a 2D field (source line 269). -/
def denorm2 (v_min v_max : ℚ) (a : List ℚ) : List ℚ :=
  a.map (denormPix v_min v_max)

/-- Denormalization of a volume (source line 219). -/
def denorm3 (v_min v_max : ℚ) (d : List (List ℚ)) : List (List ℚ) :=
  d.map (fun sl => sl.map (denormPix v_min v_max))

/-- `ImageAdjuster` state: current settings plus the cached reference volume,
dtype and range (all `None` until `set_original_volume`). -/
structure ImageAdjuster where
  settings : AdjustmentSettings
  original_volume : Option Arr3
  original_dtype : Option Dtype
  original_min : Option ℚ
  original_max : Option ℚ

/-- `ImageAdjuster.__init__`: default settings, nothing registered. -/
def ImageAdjuster.init : ImageAdjuster :=
  { settings := {}, original_volume := none, original_dtype := none,
    original_min := none, original_max := none }

/-- `ImageAdjuster.set_original_volume`: store a copy of the volume and cache
its dtype and min/max.  (Python would raise at `volume.min()` on an empty
volume; theorems about registered adjusters assume a nonempty volume.) -/
def ImageAdjuster.set_original_volume (self : ImageAdjuster) (volume : Arr3) :
    ImageAdjuster :=
  { self with
    original_volume := some volume
    original_dtype := some volume.dtype
    original_min := some (amin volume.data.flatten)
    original_max := some (amax volume.data.flatten) }

/-- `ImageAdjuster.has_original_volume`. -/
def ImageAdjuster.has_original_volume (self : ImageAdjuster) : Bool :=
  self.original_volume.isSome

/-- `ImageAdjuster.get_original_volume`. -/
def ImageAdjuster.get_original_volume (self : ImageAdjuster) : Option Arr3 :=
  self.original_volume

/-- `self._original_min if self._original_min is not None else
float(volume.min())` (source line 202); numpy raises on reducing an empty
array, modelled as an error. -/
def refMin (cached : Option ℚ) (volume : Arr3) : Except String ℚ :=
  match cached with
  | some m => .ok m
  | none =>
    if volume.data.flatten = [] then
      .error "ValueError: zero-size array to reduction operation minimum which has no identity"
    else
      .ok (amin volume.data.flatten)

/-- Source line 203, the `v_max` analogue of `refMin`. -/
def refMax (cached : Option ℚ) (volume : Arr3) : Except String ℚ :=
  match cached with
  | some m => .ok m
  | none =>
    if volume.data.flatten = [] then
      .error "ValueError: zero-size array to reduction operation maximum which has no identity"
    else
      .ok (amax volume.data.flatten)

/-- The shared transform pipeline of `apply_adjustments` (source lines
205-219): normalize, the five effects in the fixed order brightness →
contrast → gamma → sharpness → invert, then denormalize. -/
def adjustCore3 (rpow : ℚ → ℚ → ℚ) (blur3 : List (List ℚ) → List (List ℚ))
    (s : AdjustmentSettings) (v_min v_max : ℚ) (d : List (List ℚ)) :
    Except String (List (List ℚ)) :=
  let normalized := normalize3 v_min v_max d
  let r1 := apply_brightness3 normalized s.brightness
  let r2 := apply_contrast3 r1 s.contrast
  match apply_gamma3 rpow r2 s.gamma with
  | .error e => .error e
  | .ok r3 =>
    let r4 := apply_sharpness3 blur3 r3 s.sharpness
    let r5 := apply_invert3 r4 s.invert
    .ok (denorm3 v_min v_max r5)

/-- The shared transform pipeline of `apply_to_slice` (source lines
255-269), 2D instance of `adjustCore3`. -/
def adjustCore2 (rpow : ℚ → ℚ → ℚ) (blur2 : List ℚ → List ℚ)
    (s : AdjustmentSettings) (v_min v_max : ℚ) (a : List ℚ) :
    Except String (List ℚ) :=
  let normalized := normalize2 v_min v_max a
  let r1 := apply_brightness normalized s.brightness
  let r2 := apply_contrast r1 s.contrast
  match apply_gamma rpow r2 s.gamma with
  | .error e => .error e
  | .ok r3 =>
    let r4 := apply_sharpness blur2 r3 s.sharpness
    let r5 := apply_invert r4 s.invert
    .ok (denorm2 v_min v_max r5)

/-- The dtype restore block of `apply_adjustments` (source lines 222-227):
for an integer registered dtype, clip to its representable range, then cast;
for a floating dtype, cast without clamping; with nothing registered the
float32 working buffer is returned as is. -/
def dtypeRestore (cached : Option Dtype) (d : List (List ℚ)) : Arr3 :=
  match cached with
  | some dt =>
    let clipped :=
      if dt.isInteger then
        d.map (fun sl => sl.map (fun x => clip x dt.iinfoMin dt.iinfoMax))
      else d
    ⟨clipped.map (fun sl => sl.map dt.cast), dt⟩
  | none => ⟨d, Dtype.float32⟩

/-- `ImageAdjuster.apply_adjustments` (source lines 177-228): resolve the
volume (precondition `ValueError` when none is available), resolve settings,
default fast path returning a copy, then reference range, pipeline and dtype
restore. -/
def ImageAdjuster.apply_adjustments (rpow : ℚ → ℚ → ℚ)
    (blur3 : List (List ℚ) → List (List ℚ)) (self : ImageAdjuster)
    (volume : Option Arr3) (settings : Option AdjustmentSettings) :
    Except String Arr3 := do
  let volume ← match volume with
    | some v => Except.ok v
    | none =>
      match self.original_volume with
      | some v => Except.ok v
      | none =>
        Except.error "ValueError: No volume provided and no original volume stored"
  let settings := settings.getD self.settings
  if settings.is_default then
    return volume
  let v_min ← refMin self.original_min volume
  let v_max ← refMax self.original_max volume
  let core ← adjustCore3 rpow blur3 settings v_min v_max volume.data
  return dtypeRestore self.original_dtype core

/-- `ImageAdjuster.apply_to_slice` (source lines 230-271): resolve settings,
default fast path returning a copy, reference range (the cached pair when
both bounds are present, else the slice's own bounds), pipeline; the result
is the float32 working buffer — no dtype restore. -/
def ImageAdjuster.apply_to_slice (rpow : ℚ → ℚ → ℚ)
    (blur2 : List ℚ → List ℚ) (self : ImageAdjuster) (slice_2d : Arr2)
    (settings : Option AdjustmentSettings) : Except String Arr2 := do
  let settings := settings.getD self.settings
  if settings.is_default then
    return slice_2d
  let bounds ← match self.original_min, self.original_max with
    | some m, some M => Except.ok (m, M)
    | _, _ =>
      if slice_2d.data = [] then
        Except.error "ValueError: zero-size array to reduction operation minimum which has no identity"
      else
        Except.ok (amin slice_2d.data, amax slice_2d.data)
  let core ← adjustCore2 rpow blur2 settings bounds.1 bounds.2 slice_2d.data
  return ⟨core, Dtype.float32⟩

/-! ### Settings persistence (source lines 274-368)

The file is modelled as its list of text lines (`f.write` blocks split at
each newline); the I/O outcome of `open` is modelled by an `Option`/`Bool`
at the outermost wrapper, mirroring the `try/except` that converts any
raised I/O fault into the `False`/`None` result. -/

/-- Python `str.strip` on a character list. -/
def pyStrip (s : List Char) : List Char :=
  ((s.dropWhile Char.isWhitespace).reverse.dropWhile Char.isWhitespace).reverse

/-- Python `str.startswith` on character lists (`startsWithChars s p` is
`s.startswith(p)`). -/
def startsWithChars : List Char → List Char → Bool
  | _, [] => true
  | [], _ :: _ => false
  | a :: as, b :: bs => a == b && startsWithChars as bs

/-- Python `str.split(sep)` for a one-character separator given as a
predicate: the groups between separator occurrences. -/
def splitOnChar (p : Char → Bool) : List Char → List (List Char)
  | [] => [[]]
  | c :: cs =>
    if p c then [] :: splitOnChar p cs
    else
      match splitOnChar p cs with
      | [] => [[c]]
      | g :: gs => (c :: g) :: gs

/-- Python `str.lower` (ASCII case folding suffices for this format). -/
def pyLower (s : List Char) : List Char :=
  s.map Char.toLower

/-- Digit-string value, `"123"` ↦ `123`. -/
def digitsVal (ds : List Char) : ℕ :=
  ds.foldl (fun a c => a * 10 + (c.toNat - 48)) 0

/-- All characters are decimal digits. -/
def allDigits (ds : List Char) : Bool :=
  ds.all Char.isDigit

/-- Strip one optional leading sign, returning whether it was a minus. -/
def parseSignFlag : List Char → Bool × List Char
  | '+' :: cs => (false, cs)
  | '-' :: cs => (true, cs)
  | cs => (false, cs)

/-- Mantissa of a Python float literal: digits with an optional single
point, at least one digit overall. -/
def parseMantissa (cs : List Char) : Option ℚ :=
  match splitOnChar (fun c => c == '.') cs with
  | [ip] =>
    if ip ≠ [] && allDigits ip then some (digitsVal ip) else none
  | [ip, fp] =>
    if (ip ≠ [] || fp ≠ []) && allDigits ip && allDigits fp then
      some ((digitsVal ip : ℚ) + (digitsVal fp : ℚ) / 10 ^ fp.length)
    else none
  | _ => none

/-- Python `float(s)` restricted to finite decimal literals
(`[+-]?digits[.digits]?[eE[+-]?digits]?` with surrounding whitespace
stripped); the special spellings `inf`/`nan`, which never occur in this
file format, are not modelled.  Returns `none` exactly when `float` would
raise `ValueError` on such input. -/
def parsePyFloat (cs0 : List Char) : Option ℚ :=
  let cs1 := pyStrip cs0
  let sgn := parseSignFlag cs1
  match splitOnChar (fun c => c == 'e' || c == 'E') sgn.2 with
  | [m] =>
    (parseMantissa m).map (fun v => if sgn.1 then -v else v)
  | [m, e] =>
    match parseMantissa m with
    | none => none
    | some v =>
      let esgn := parseSignFlag e
      if esgn.2 ≠ [] && allDigits esgn.2 then
        let scale : ℚ :=
          if esgn.1 then (1 / 10) ^ digitsVal esgn.2 else 10 ^ digitsVal esgn.2
        some ((if sgn.1 then -v else v) * scale)
      else none
  | _ => none

/-- `line.split(':')[1].strip()` for a line known to contain a colon. -/
def afterColon (line : List Char) : List Char :=
  pyStrip ((splitOnChar (fun c => c == ':') line).getD 1 [])

/-- The `Invert:` truthiness test: `value.strip().lower()` is one of
`yes`, `true`, `1`. -/
def invertTruthy (cs : List Char) : Bool :=
  let v := pyLower (pyStrip cs)
  v == "yes".data || v == "true".data || v == "1".data

/-- One iteration of the `load_adjustment_settings` loop (source lines
350-362): strip the line, dispatch on the five recognized prefixes,
`none` when `float` raises on the field of a recognized numeric line
(the surrounding `except` then yields `None` for the whole import). -/
def parse_line (settings : AdjustmentSettings) (line0 : String) :
    Option AdjustmentSettings :=
  let line := pyStrip line0.data
  if startsWithChars line "Brightness:".data then
    (parsePyFloat (afterColon line)).map
      (fun v => { settings with brightness := v })
  else if startsWithChars line "Contrast:".data then
    (parsePyFloat (afterColon line)).map
      (fun v => { settings with contrast := v })
  else if startsWithChars line "Gamma:".data then
    (parsePyFloat (afterColon line)).map
      (fun v => { settings with gamma := v })
  else if startsWithChars line "Sharpness:".data then
    (parsePyFloat (afterColon line)).map
      (fun v => { settings with sharpness := v })
  else if startsWithChars line "Invert:".data then
    some { settings with invert := invertTruthy (afterColon line) }
  else
    some settings

/-- The `for line in f` loop of `load_adjustment_settings`, starting from
default settings; a raised parse fault anywhere aborts the whole load. -/
def load_loop (settings : AdjustmentSettings) :
    List String → Option AdjustmentSettings
  | [] => some settings
  | line :: rest =>
    match parse_line settings line with
    | none => none
    | some s2 => load_loop s2 rest

/-- `load_adjustment_settings` on the lines of a readable file. -/
def load_lines (lines : List String) : Option AdjustmentSettings :=
  load_loop {} lines

/-- `load_adjustment_settings` (source lines 336-367): `none` for an
unreadable source (`open` raised and the `except` returned `None`), else
the line loop. -/
def load_adjustment_settings (source : Option (List String)) :
    Option AdjustmentSettings :=
  match source with
  | none => none
  | some lines => load_lines lines

/-- `c * n` for a separator row such as `"=" * 60`. -/
def repChar (n : ℕ) (c : Char) : String :=
  String.mk (List.replicate n c)

/-- Round-half-even of an exact rational, the rounding of Python `format`
applied to the ideal (exact) value. -/
def roundHalfEven (q : ℚ) : ℤ :=
  let f := q.floor
  let r := q - f
  if r < 1 / 2 then f
  else if 1 / 2 < r then f + 1
  else if f % 2 = 0 then f else f + 1

/-- Left-pad with zeros to a given width. -/
def padZeros (w : ℕ) (s : String) : String :=
  repChar (w - s.length) '0' ++ s

/-- Python `format(q, '.df')` on the exact value: fixed-point with `d`
decimals, round half to even.  (A negative value rounding to zero prints
without the Python `-0.0` sign; that corner never arises below.) -/
def fmtFixed (d : ℕ) (q : ℚ) : String :=
  let scaled := roundHalfEven (q * 10 ^ d)
  let a := scaled.natAbs
  (if scaled < 0 then "-" else "") ++ toString (a / 10 ^ d) ++ "." ++
    padZeros d (toString (a % 10 ^ d))

/-- Python `format(q, '+.df')`: as `fmtFixed` with an explicit plus sign on
nonnegative values. -/
def fmtSigned (d : ℕ) (q : ℚ) : String :=
  let s := fmtFixed d q
  if s.startsWith "-" then s else "+" ++ s

/-- The fixed trailer of every exported file (source lines 318-328): the
Parameter Descriptions block and footer.  Note the description lines reuse
the recognized parameter prefixes. -/
def exportDescBlock : List String :=
  [repChar 40 '-',
   "Parameter Descriptions",
   repChar 40 '-',
   "  Brightness:  Shifts all pixel values (-100 to +100)",
   "  Contrast:    Multiplier around midpoint (0.1 to 3.0, 1.0 = no change)",
   "  Gamma:       Gamma correction (0.1 to 3.0, 1.0 = no change)",
   "               Lower values brighten, higher values darken",
   "  Sharpness:   Unsharp mask amount (0 to 100)",
   "  Invert:      Inverts all pixel intensities",
   "",
   repChar 60 '=']

/-- Header, timestamp and optional metadata block (source lines 290-304);
the timestamp string is a parameter of the model. -/
def exportHeadBlock (timestamp : String) (volume_info : List (String × String)) :
    List String :=
  [repChar 60 '=',
   "VMM-FRC Image Adjustment Settings",
   repChar 60 '=',
   "",
   "Exported: " ++ timestamp,
   ""] ++
  (if volume_info = [] then []
   else
     [repChar 40 '-', "Volume Information", repChar 40 '-'] ++
     volume_info.map (fun kv => "  " ++ kv.1 ++ ": " ++ kv.2) ++ [""])

/-- The Adjustment Parameters block (source lines 307-315) with the
documented formats: brightness `+.1f`, contrast and gamma `.2f`,
sharpness `.1f`, invert `Yes`/`No`. -/
def exportParamBlock (settings : AdjustmentSettings) : List String :=
  [repChar 40 '-',
   "Adjustment Parameters",
   repChar 40 '-',
   "  Brightness:  " ++ fmtSigned 1 settings.brightness,
   "  Contrast:    " ++ fmtFixed 2 settings.contrast,
   "  Gamma:       " ++ fmtFixed 2 settings.gamma,
   "  Sharpness:   " ++ fmtFixed 1 settings.sharpness,
   "  Invert:      " ++ (if settings.invert then "Yes" else "No"),
   ""]

/-- The full content written by `export_adjustment_settings`, as lines. -/
def export_lines (settings : AdjustmentSettings) (timestamp : String)
    (volume_info : List (String × String)) : List String :=
  exportHeadBlock timestamp volume_info ++ exportParamBlock settings ++
    exportDescBlock

/-- `export_adjustment_settings` (source lines 274-333): on a writable
destination (`io_ok`), the file content and `True`; on any I/O fault the
`except` swallows the exception and the call returns `False`. -/
def export_adjustment_settings (io_ok : Bool) (settings : AdjustmentSettings)
    (timestamp : String) (volume_info : List (String × String)) :
    Bool × Option (List String) :=
  if io_ok then (true, some (export_lines settings timestamp volume_info))
  else (false, none)

/-! ### General lemmas about the embedding -/

/-- `is_default` unfolded to the five field equations. -/
theorem is_default_iff (s : AdjustmentSettings) :
    s.is_default = true ↔
      s.brightness = 0 ∧ s.contrast = 1 ∧ s.gamma = 1 ∧ s.sharpness = 0 ∧
        s.invert = false := by
  simp [AdjustmentSettings.is_default, and_assoc]

/-- Concrete instantiation of the abstract `np.power` primitive, used to
evaluate the model at inputs whose settings keep `gamma = 1` (the power is
then never consulted). -/
def rpow0 : ℚ → ℚ → ℚ := fun _ _ => 0

/-- Concrete instantiation of the abstract 2D Gaussian blur, used at inputs
whose settings keep `sharpness = 0` (the blur is then never consulted). -/
def blur20 : List ℚ → List ℚ := id

/-- Concrete instantiation of the abstract 3D Gaussian blur. -/
def blur30 : List (List ℚ) → List (List ℚ) := id

/-- `getD` through `map` below the length. -/
theorem getD_map_of_lt {α β : Type} (f : α → β) :
    ∀ (l : List α) (i : ℕ), i < l.length → ∀ (d : α) (d' : β),
      (l.map f).getD i d' = f (l.getD i d)
  | [], i, h => by simp at h
  | a :: as, 0, _ => by intro d d'; rfl
  | a :: as, i + 1, h => by
    intro d d'
    exact getD_map_of_lt f as i (Nat.lt_of_succ_lt_succ h) d d'

/-- If some line of the file parses to `none` whatever the running settings
are, the whole load loop returns `none`. -/
theorem load_loop_none_of_mem (line : String)
    (hline : ∀ st : AdjustmentSettings, parse_line st line = none) :
    ∀ (lines : List String), line ∈ lines →
      ∀ st : AdjustmentSettings, load_loop st lines = none
  | [], hmem => by simp at hmem
  | a :: rest, hmem => by
    intro st
    rcases List.mem_cons.mp hmem with h | h
    · subst h
      simp [load_loop, hline st]
    · cases hpa : parse_line st a with
      | none => simp [load_loop, hpa]
      | some s2 =>
        simp only [load_loop, hpa]
        exact load_loop_none_of_mem line hline rest h s2

/-- Two prefixes that disagree on their first character cannot both match:
used to walk the `elif` chain of the parser. -/
theorem startsWith_head_ne (l : List Char) (a b : Char) (p q : List Char)
    (hab : (b == a) = false) (h : startsWithChars l (a :: p) = true) :
    startsWithChars l (b :: q) = false := by
  cases l with
  | nil => simp [startsWithChars] at h
  | cons c cs =>
    simp only [startsWithChars, Bool.and_eq_true] at h
    rcases h with ⟨hc, -⟩
    have : c = a := by simpa using hc
    subst this
    simp [startsWithChars, BEq.symm_false hab]

/-- `np.min` of a nonempty constant array. -/
theorem amin_const (c : ℚ) :
    ∀ (l : List ℚ), l ≠ [] → (∀ x ∈ l, x = c) → amin l = c := by
  have key : ∀ (l : List ℚ), (∀ x ∈ l, x = c) → l.foldl min c = c := by
    intro l
    induction l with
    | nil => intro _; rfl
    | cons a as ih =>
      intro h
      have ha : a = c := h a (by simp)
      simp only [List.foldl, ha, min_self]
      exact ih (fun x hx => h x (by simp [hx]))
  intro l hne h
  cases l with
  | nil => exact absurd rfl hne
  | cons a as =>
    have ha : a = c := h a (by simp)
    subst ha
    exact key as (fun x hx => h x (by simp [hx]))

/-- `np.max` of a nonempty constant array. -/
theorem amax_const (c : ℚ) :
    ∀ (l : List ℚ), l ≠ [] → (∀ x ∈ l, x = c) → amax l = c := by
  have key : ∀ (l : List ℚ), (∀ x ∈ l, x = c) → l.foldl max c = c := by
    intro l
    induction l with
    | nil => intro _; rfl
    | cons a as ih =>
      intro h
      have ha : a = c := h a (by simp)
      simp only [List.foldl, ha, max_self]
      exact ih (fun x hx => h x (by simp [hx]))
  intro l hne h
  cases l with
  | nil => exact absurd rfl hne
  | cons a as =>
    have ha : a = c := h a (by simp)
    subst ha
    exact key as (fun x hx => h x (by simp [hx]))

/-- `clip` lands in the clipping interval. -/
theorem clip_mem (x lo hi : ℚ) (h : lo ≤ hi) :
    lo ≤ clip x lo hi ∧ clip x lo hi ≤ hi :=
  ⟨le_min (le_max_right x lo) h, min_le_right _ _⟩

/-- Truncation toward zero stays inside an integer-bounded interval that
contains zero. -/
theorem trunc_in_range (lo hi y : ℚ) (hlo : lo ≤ 0) (hhi : 0 ≤ hi)
    (h1 : lo ≤ y) (h2 : y ≤ hi) :
    lo ≤ ((truncQ y : ℤ) : ℚ) ∧ ((truncQ y : ℤ) : ℚ) ≤ hi := by
  unfold truncQ
  by_cases hy : 0 ≤ y
  · rw [if_pos hy]
    constructor
    · exact le_trans hlo (by exact_mod_cast Int.floor_nonneg.mpr hy)
    · exact le_trans (Int.floor_le y) h2
  · rw [if_neg hy]
    push_neg at hy
    constructor
    · exact le_trans h1 (Int.le_ceil y)
    · have hc : (⌈y⌉ : ℤ) ≤ 0 := Int.ceil_le.mpr (by exact_mod_cast le_of_lt hy)
      exact le_trans (by exact_mod_cast hc) hhi

/-- The gamma stage as a total function, defined for `gamma ≠ 0` (the guard
at `gamma = 1` mirrors the early return of `apply_gamma`). -/
def gammaStage (rpow : ℚ → ℚ → ℚ) (gamma : ℚ) (a : List ℚ) : List ℚ :=
  if gamma = 1 then a else a.map (gammaPix rpow gamma)

/-- The per-slice action of the shared pipeline when `sharpness = 0` (the
only stage coupling different slices is then the identity). -/
def coreSlice (rpow : ℚ → ℚ → ℚ) (s : AdjustmentSettings) (lo hi : ℚ)
    (a : List ℚ) : List ℚ :=
  denorm2 lo hi
    (apply_invert
      (gammaStage rpow s.gamma
        (apply_contrast (apply_brightness (normalize2 lo hi a) s.brightness)
          s.contrast))
      s.invert)

theorem normalize3_map (lo hi : ℚ) (d : List (List ℚ)) :
    normalize3 lo hi d = d.map (normalize2 lo hi) := by
  unfold normalize3 normalize2
  split <;> rename_i h <;> simp [h]

theorem apply_brightness3_map (d : List (List ℚ)) (b : ℚ) :
    apply_brightness3 d b = d.map (fun sl => apply_brightness sl b) := by
  unfold apply_brightness3 apply_brightness
  split <;> rename_i h <;> simp [h]

theorem apply_contrast3_map (d : List (List ℚ)) (c : ℚ) :
    apply_contrast3 d c = d.map (fun sl => apply_contrast sl c) := by
  unfold apply_contrast3 apply_contrast
  split <;> rename_i h <;> simp [h]

theorem apply_gamma_ok (rpow : ℚ → ℚ → ℚ) (a : List ℚ) (g : ℚ)
    (hg : g ≠ 0) : apply_gamma rpow a g = .ok (gammaStage rpow g a) := by
  unfold apply_gamma gammaStage
  split <;> rename_i h
  · simp [h]
  · simp [h, hg]

theorem apply_gamma3_ok (rpow : ℚ → ℚ → ℚ) (d : List (List ℚ)) (g : ℚ)
    (hg : g ≠ 0) :
    apply_gamma3 rpow d g = .ok (d.map (gammaStage rpow g)) := by
  unfold apply_gamma3 gammaStage
  split <;> rename_i h
  · simp [h]
  · simp [h, hg]

theorem apply_invert3_map (d : List (List ℚ)) (b : Bool) :
    apply_invert3 d b = d.map (fun sl => apply_invert sl b) := by
  unfold apply_invert3 apply_invert
  cases b <;> simp

theorem denorm3_map (lo hi : ℚ) (d : List (List ℚ)) :
    denorm3 lo hi d = d.map (denorm2 lo hi) := rfl

/-- With `sharpness = 0` and `gamma ≠ 0` the volume pipeline acts slicewise
as `coreSlice`, and the slice pipeline is exactly `coreSlice`. -/
theorem apply_sharpness_zero (blur2 : List ℚ → List ℚ) (a : List ℚ) :
    apply_sharpness blur2 a 0 = a :=
  if_pos rfl

theorem apply_sharpness3_zero (blur3 : List (List ℚ) → List (List ℚ))
    (d : List (List ℚ)) : apply_sharpness3 blur3 d 0 = d :=
  if_pos rfl

theorem adjustCore3_slicewise (rpow : ℚ → ℚ → ℚ)
    (blur3 : List (List ℚ) → List (List ℚ)) (s : AdjustmentSettings)
    (lo hi : ℚ) (d : List (List ℚ)) (hsh : s.sharpness = 0)
    (hg : s.gamma ≠ 0) :
    adjustCore3 rpow blur3 s lo hi d = .ok (d.map (coreSlice rpow s lo hi)) := by
  simp [adjustCore3, normalize3_map, apply_brightness3_map,
    apply_contrast3_map, apply_gamma3_ok rpow _ _ hg, hsh,
    apply_sharpness3_zero, apply_invert3_map, denorm3_map, List.map_map,
    coreSlice, Function.comp]

theorem adjustCore2_coreSlice (rpow : ℚ → ℚ → ℚ) (blur2 : List ℚ → List ℚ)
    (s : AdjustmentSettings) (lo hi : ℚ) (a : List ℚ) (hsh : s.sharpness = 0)
    (hg : s.gamma ≠ 0) :
    adjustCore2 rpow blur2 s lo hi a = .ok (coreSlice rpow s lo hi a) := by
  simp [adjustCore2, apply_gamma_ok rpow _ _ hg, hsh, apply_sharpness_zero,
    coreSlice]

/-- Non-default `apply_to_slice` with a cached reference range is the slice
pipeline followed by the float32 tag. -/
theorem apply_to_slice_core (rpow : ℚ → ℚ → ℚ) (blur2 : List ℚ → List ℚ)
    (adj : ImageAdjuster) (sl : Arr2) (s : AdjustmentSettings) (lo hi : ℚ)
    (hlo : adj.original_min = some lo) (hhi : adj.original_max = some hi)
    (hs : s.is_default = false) :
    adj.apply_to_slice rpow blur2 sl (some s) =
      (adjustCore2 rpow blur2 s lo hi sl.data).map
        (fun c => (⟨c, Dtype.float32⟩ : Arr2)) := by
  unfold ImageAdjuster.apply_to_slice
  simp only [Option.getD_some, hs, Bool.false_eq_true, if_false, hlo, hhi]
  cases h : adjustCore2 rpow blur2 s lo hi sl.data <;>
    simp [h, Bind.bind, Except.bind, Except.map, Pure.pure, Except.pure]

/-- Non-default `apply_adjustments` on an explicitly supplied volume with a
cached reference range is the volume pipeline followed by the dtype
restore. -/
theorem apply_adjustments_core (rpow : ℚ → ℚ → ℚ)
    (blur3 : List (List ℚ) → List (List ℚ)) (adj : ImageAdjuster) (v : Arr3)
    (s : AdjustmentSettings) (lo hi : ℚ)
    (hlo : adj.original_min = some lo) (hhi : adj.original_max = some hi)
    (hs : s.is_default = false) :
    adj.apply_adjustments rpow blur3 (some v) (some s) =
      (adjustCore3 rpow blur3 s lo hi v.data).map
        (dtypeRestore adj.original_dtype) := by
  unfold ImageAdjuster.apply_adjustments
  simp only [Option.getD_some, hs, Bool.false_eq_true, if_false, hlo, hhi,
    refMin, refMax]
  cases h : adjustCore3 rpow blur3 s lo hi v.data <;>
    simp [h, Bind.bind, Except.bind, Except.map, Pure.pure, Except.pure]

/-- The dtype restore is the identity on the data for floating dtypes:
no clamping, no value change. -/
theorem dtypeRestore_float (d : Dtype) (hd : d.isInteger = false)
    (c : List (List ℚ)) : dtypeRestore (some d) c = ⟨c, d⟩ := by
  unfold dtypeRestore Dtype.cast
  simp [hd]

/-- Inversion for a successful `Except.bind`. -/
theorem except_bind_ok {α β : Type} (x : Except String α)
    (f : α → Except String β) (b : β) (h : Except.bind x f = .ok b) :
    ∃ a, x = .ok a ∧ f a = .ok b := by
  cases x with
  | error e => simp [Except.bind] at h
  | ok a => exact ⟨a, rfl, h⟩

/-- `pure` then `bind` collapses (used to clean the `do` desugaring). -/
theorem except_pure_bind {α β : Type} (a : α) (f : α → Except String β) :
    Except.bind (pure a) f = f a := rfl

/-- A settings value violating one of the five default equations is not
default. -/
theorem is_default_eq_false (s : AdjustmentSettings)
    (h : ¬(s.brightness = 0 ∧ s.contrast = 1 ∧ s.gamma = 1 ∧
      s.sharpness = 0 ∧ s.invert = false)) : s.is_default = false := by
  rw [Bool.eq_false_iff]
  intro hT
  exact h ((is_default_iff s).mp hT)

/-! ### Claim theorems -/

/-- C9: normalization/denormalization round-trip — for reference bounds
`lo < hi` and any value `x` in `[lo, hi]`, denormalizing the normalized
value gives back `x` exactly (hence within any floating tolerance), both
for the single-element maps inlined in the apply paths and for the whole
2D/3D normalization blocks. -/
theorem C9_normalize_denormalize_roundtrip :
    (∀ lo hi x : ℚ, lo < hi → lo ≤ x → x ≤ hi →
      denormPix lo hi (normPix lo hi x) = x) ∧
    (∀ (lo hi : ℚ) (a : List ℚ), lo < hi →
      denorm2 lo hi (normalize2 lo hi a) = a) ∧
    (∀ (lo hi : ℚ) (d : List (List ℚ)), lo < hi →
      denorm3 lo hi (normalize3 lo hi d) = d) := by
  have key : ∀ lo hi x : ℚ, hi ≠ lo → denormPix lo hi (normPix lo hi x) = x := by
    intro lo hi x h
    unfold denormPix normPix
    rw [div_mul_cancel₀ _ (sub_ne_zero.mpr h), sub_add_cancel]
  have key2 : ∀ (lo hi : ℚ) (a : List ℚ), lo < hi →
      denorm2 lo hi (normalize2 lo hi a) = a := by
    intro lo hi a h
    unfold denorm2 normalize2
    rw [if_neg (ne_of_gt h), List.map_map,
      show (denormPix lo hi ∘ normPix lo hi) = id from
        funext fun x => key lo hi x (ne_of_gt h),
      List.map_id]
  refine ⟨fun lo hi x h _ _ => key lo hi x (ne_of_gt h), key2, ?_⟩
  intro lo hi d h
  rw [denorm3_map, normalize3_map, List.map_map,
    show (denorm2 lo hi ∘ normalize2 lo hi) = id from
      funext fun a => key2 lo hi a h,
    List.map_id]

/-- Witness for C9 at concrete bounds and value. -/
theorem C9_witness :
    denormPix 0 2 (normPix 0 2 1) = 1 ∧
    denorm2 0 2 (normalize2 0 2 [0, 1, 2]) = [0, 1, 2] :=
  ⟨C9_normalize_denormalize_roundtrip.1 0 2 1 (by norm_num) (by norm_num)
      (by norm_num),
   C9_normalize_denormalize_roundtrip.2.1 0 2 [0, 1, 2] (by norm_num)⟩

/-- C5: with all-default settings both apply paths take the fast path and
return an unmodified copy of their input — equal values and dtype — for a
volume passed explicitly, for the registered original, and for a 2D slice;
the normalization/transform pipeline is not run (the result needs no
reference range at all). -/
theorem C5_default_settings_identity :
    ∀ (rpow : ℚ → ℚ → ℚ) (blur3 : List (List ℚ) → List (List ℚ))
      (blur2 : List ℚ → List ℚ) (adj : ImageAdjuster) (v : Arr3) (sl : Arr2)
      (s : AdjustmentSettings), s.is_default = true →
      adj.apply_adjustments rpow blur3 (some v) (some s) = .ok v ∧
      (adj.original_volume = some v →
        adj.apply_adjustments rpow blur3 none (some s) = .ok v) ∧
      adj.apply_to_slice rpow blur2 sl (some s) = .ok sl := by
  intro rpow blur3 blur2 adj v sl s hs
  refine ⟨?_, ?_, ?_⟩
  · simp [ImageAdjuster.apply_adjustments, hs, Bind.bind, Except.bind,
      Pure.pure, Except.pure]
  · intro hv
    simp [ImageAdjuster.apply_adjustments, hv, hs, Bind.bind, Except.bind,
      Pure.pure, Except.pure]
  · simp [ImageAdjuster.apply_to_slice, hs, Bind.bind, Except.bind,
      Pure.pure, Except.pure]

/-- Witness for C5 on a concrete registered volume and slice. -/
theorem C5_witness :
    (ImageAdjuster.init.set_original_volume ⟨[[3]], .uint8⟩).apply_adjustments
        rpow0 blur30 (some ⟨[[3]], .uint8⟩) (some {}) = .ok ⟨[[3]], .uint8⟩ ∧
    (ImageAdjuster.init.set_original_volume ⟨[[3]], .uint8⟩).apply_adjustments
        rpow0 blur30 none (some {}) = .ok ⟨[[3]], .uint8⟩ ∧
    (ImageAdjuster.init.set_original_volume ⟨[[3]], .uint8⟩).apply_to_slice
        rpow0 blur20 ⟨[3], .uint8⟩ (some {}) = .ok ⟨[3], .uint8⟩ := by
  have h := C5_default_settings_identity rpow0 blur30 blur20
    (ImageAdjuster.init.set_original_volume ⟨[[3]], .uint8⟩) ⟨[[3]], .uint8⟩
    ⟨[3], .uint8⟩ {} ((is_default_iff _).mpr ⟨rfl, rfl, rfl, rfl, rfl⟩)
  exact ⟨h.1, h.2.1 rfl, h.2.2⟩

/-- C6: both pipelines apply the five per-effect transforms in exactly the
order brightness → contrast → gamma → sharpness → invert (first two
conjuncts: the 2D and 3D pipeline bodies factored through the five named
transforms in that order), and the order matters: on the field `[1/2]`,
brightness 20 then contrast 2 gives `[9/10]` while contrast 2 then
brightness 20 gives `[7/10]` (third conjunct). -/
theorem C6_fixed_transform_order :
    (∀ (rpow : ℚ → ℚ → ℚ) (blur2 : List ℚ → List ℚ)
        (s : AdjustmentSettings) (lo hi : ℚ) (a : List ℚ),
      adjustCore2 rpow blur2 s lo hi a =
        (apply_gamma rpow
            (apply_contrast
              (apply_brightness (normalize2 lo hi a) s.brightness) s.contrast)
            s.gamma).map
          (fun r =>
            denorm2 lo hi
              (apply_invert (apply_sharpness blur2 r s.sharpness) s.invert))) ∧
    (∀ (rpow : ℚ → ℚ → ℚ) (blur3 : List (List ℚ) → List (List ℚ))
        (s : AdjustmentSettings) (lo hi : ℚ) (d : List (List ℚ)),
      adjustCore3 rpow blur3 s lo hi d =
        (apply_gamma3 rpow
            (apply_contrast3
              (apply_brightness3 (normalize3 lo hi d) s.brightness) s.contrast)
            s.gamma).map
          (fun r =>
            denorm3 lo hi
              (apply_invert3 (apply_sharpness3 blur3 r s.sharpness) s.invert))) ∧
    apply_contrast (apply_brightness [1/2] 20) 2 ≠
      apply_brightness (apply_contrast [1/2] 2) 20 := by
  refine ⟨?_, ?_, ?_⟩
  · intro rpow blur2 s lo hi a
    cases h : apply_gamma rpow
        (apply_contrast (apply_brightness (normalize2 lo hi a) s.brightness)
          s.contrast) s.gamma <;>
      simp [adjustCore2, h, Except.map]
  · intro rpow blur3 s lo hi d
    cases h : apply_gamma3 rpow
        (apply_contrast3 (apply_brightness3 (normalize3 lo hi d) s.brightness)
          s.contrast) s.gamma <;>
      simp [adjustCore3, h, Except.map]
  · have e1 : apply_contrast (apply_brightness [1/2] 20) 2 = [9/10] := by
      norm_num [apply_brightness, apply_contrast, clip, min_def, max_def]
    have e2 : apply_brightness (apply_contrast [1/2] 2) 20 = [7/10] := by
      norm_num [apply_brightness, apply_contrast, clip, min_def, max_def]
    rw [e1, e2]
    intro h
    simp only [List.cons.injEq, and_true] at h
    norm_num at h

/-- C10 (implicit): for non-default settings `apply_to_slice` always returns
a float32 buffer — it never casts back to the cached original dtype, even
when a registered original volume is integer-typed; only the default fast
path preserves the slice's dtype (returning the unmodified copy). -/
theorem C10_slice_result_keeps_float32 :
    (∀ (rpow : ℚ → ℚ → ℚ) (blur2 : List ℚ → List ℚ) (adj : ImageAdjuster)
        (sl : Arr2) (sArg : Option AdjustmentSettings) (R : Arr2),
      (sArg.getD adj.settings).is_default = false →
      adj.apply_to_slice rpow blur2 sl sArg = .ok R →
      R.dtype = Dtype.float32) ∧
    (∀ (rpow : ℚ → ℚ → ℚ) (blur2 : List ℚ → List ℚ) (adj : ImageAdjuster)
        (sl : Arr2) (sArg : Option AdjustmentSettings),
      (sArg.getD adj.settings).is_default = true →
      adj.apply_to_slice rpow blur2 sl sArg = .ok sl) := by
  constructor
  · intro rpow blur2 adj sl sArg R h hok
    unfold ImageAdjuster.apply_to_slice at hok
    simp only [h, Bool.false_eq_true, if_false, Bind.bind,
      except_pure_bind] at hok
    have finish : ∀ (X : Except String (ℚ × ℚ))
        (g : ℚ × ℚ → Except String (List ℚ)),
        Except.bind X (fun y => Except.bind (g y)
          (fun core => pure (⟨core, Dtype.float32⟩ : Arr2))) = .ok R →
        R.dtype = Dtype.float32 := by
      intro X g hX
      rcases except_bind_ok _ _ _ hX with ⟨b, -, hk⟩
      rcases except_bind_ok _ _ _ hk with ⟨c, -, hp⟩
      simp only [Pure.pure, Except.pure, Except.ok.injEq] at hp
      rw [← hp]
    rcases hmin : adj.original_min with _ | lo <;>
      rcases hmax : adj.original_max with _ | hi <;>
      rw [hmin, hmax] at hok <;> dsimp only at hok
    · split at hok
      · exact finish _ _ hok
      · exact finish _ _ hok
    · split at hok
      · exact finish _ _ hok
      · exact finish _ _ hok
    · split at hok
      · exact finish _ _ hok
      · exact finish _ _ hok
    · exact finish _ _ hok
  · intro rpow blur2 adj sl sArg h
    simp [ImageAdjuster.apply_to_slice, h, Bind.bind, Except.bind,
      Pure.pure, Except.pure]

/-- Witness for C10: the registered original is uint8, yet a non-default
slice preview comes back float32 (and the default path preserves uint8). -/
theorem C10_witness :
    (ImageAdjuster.init.set_original_volume ⟨[[0, 255, 100]], .uint8⟩).apply_to_slice
        rpow0 blur20 ⟨[0, 255, 100], .uint8⟩ (some { brightness := 10 }) =
      .ok ⟨[51/2, 255, 251/2], .float32⟩ ∧
    (⟨[51/2, 255, 251/2], .float32⟩ : Arr2).dtype = Dtype.float32 ∧
    (ImageAdjuster.init.set_original_volume ⟨[[0, 255, 100]], .uint8⟩).apply_to_slice
        rpow0 blur20 ⟨[0, 255, 100], .uint8⟩ (some {}) =
      .ok ⟨[0, 255, 100], .uint8⟩ := by
  have hd : ({ brightness := 10 : AdjustmentSettings }).is_default = false :=
    is_default_eq_false _ (by norm_num)
  have e1 : (ImageAdjuster.init.set_original_volume
      ⟨[[0, 255, 100]], .uint8⟩).apply_to_slice rpow0 blur20
      ⟨[0, 255, 100], .uint8⟩ (some { brightness := 10 }) =
      .ok ⟨[51/2, 255, 251/2], .float32⟩ := by
    simp only [ImageAdjuster.apply_to_slice, ImageAdjuster.set_original_volume,
      ImageAdjuster.init, Option.getD_some, hd, Bool.false_eq_true, if_false,
      adjustCore2, normalize2, apply_brightness, apply_contrast,
      apply_gamma, apply_sharpness, apply_invert, denorm2,
      normPix, denormPix, clip, gammaPix, amin, amax, List.flatten,
      List.foldl, List.map, List.zip, Bind.bind, Except.bind, Pure.pure,
      Except.pure]
    norm_num [min_def, max_def, normPix, denormPix]
  refine ⟨e1, C10_slice_result_keeps_float32.1 rpow0 blur20 _ _ _ _
      (by simpa using hd) e1, ?_⟩
  exact (C10_slice_result_keeps_float32.2 rpow0 blur20
    (ImageAdjuster.init.set_original_volume ⟨[[0, 255, 100]], .uint8⟩)
    ⟨[0, 255, 100], .uint8⟩ (some {})
    ((is_default_iff _).mpr ⟨rfl, rfl, rfl, rfl, rfl⟩))

/-- `ok` then `bind` collapses. -/
theorem except_ok_bind {α β : Type} (a : α) (f : α → Except String β) :
    Except.bind (.ok a) f = f a := rfl

/-- The reference minimum resolves whenever a bound is cached or the volume
has elements. -/
theorem refMin_ok (cached : Option ℚ) (v : Arr3)
    (h : cached.isSome = true ∨ v.data.flatten ≠ []) :
    ∃ m, refMin cached v = .ok m := by
  cases cached with
  | some m => exact ⟨m, rfl⟩
  | none =>
    rcases h with h | h
    · simp at h
    · exact ⟨amin v.data.flatten, by simp [refMin, h]⟩

/-- The reference maximum resolves whenever a bound is cached or the volume
has elements. -/
theorem refMax_ok (cached : Option ℚ) (v : Arr3)
    (h : cached.isSome = true ∨ v.data.flatten ≠ []) :
    ∃ m, refMax cached v = .ok m := by
  cases cached with
  | some m => exact ⟨m, rfl⟩
  | none =>
    rcases h with h | h
    · simp at h
    · exact ⟨amax v.data.flatten, by simp [refMax, h]⟩

/-- The volume pipeline succeeds whenever `gamma ≠ 0`. -/
theorem adjustCore3_isOk (rpow : ℚ → ℚ → ℚ)
    (blur3 : List (List ℚ) → List (List ℚ)) (s : AdjustmentSettings)
    (lo hi : ℚ) (d : List (List ℚ)) (hg : s.gamma ≠ 0) :
    ∃ c, adjustCore3 rpow blur3 s lo hi d = .ok c := by
  simp only [adjustCore3, apply_gamma3_ok rpow _ _ hg]
  exact ⟨_, rfl⟩

/-- The volume pipeline raises `ZeroDivisionError` at `gamma = 0`. -/
theorem adjustCore3_gamma_zero (rpow : ℚ → ℚ → ℚ)
    (blur3 : List (List ℚ) → List (List ℚ)) (s : AdjustmentSettings)
    (lo hi : ℚ) (d : List (List ℚ)) (hg : s.gamma = 0) :
    adjustCore3 rpow blur3 s lo hi d =
      .error "ZeroDivisionError: float division by zero" := by
  simp only [adjustCore3, apply_gamma3, hg]
  norm_num

/-- `apply_adjustments` succeeds when a volume is available, `gamma ≠ 0`,
and the reference range is cached or the volume is nonempty. -/
theorem apply_adjustments_isOk (rpow : ℚ → ℚ → ℚ)
    (blur3 : List (List ℚ) → List (List ℚ)) (adj : ImageAdjuster)
    (volArg : Option Arr3) (sArg : Option AdjustmentSettings) (v : Arr3)
    (hv : volArg = some v ∨ (volArg = none ∧ adj.original_volume = some v))
    (hg : (sArg.getD adj.settings).gamma ≠ 0)
    (hr : (adj.original_min.isSome = true ∧ adj.original_max.isSome = true) ∨
      v.data.flatten ≠ []) :
    (adj.apply_adjustments rpow blur3 volArg sArg).isOk = true := by
  obtain ⟨m, hm⟩ := refMin_ok adj.original_min v (hr.imp (fun x => x.1) id)
  obtain ⟨M, hM⟩ := refMax_ok adj.original_max v (hr.imp (fun x => x.2) id)
  obtain ⟨c, hc⟩ :=
    adjustCore3_isOk rpow blur3 (sArg.getD adj.settings) m M v.data hg
  rcases hv with h | ⟨h1, h2⟩
  · subst h
    simp only [ImageAdjuster.apply_adjustments, Bind.bind, except_pure_bind,
      except_ok_bind]
    by_cases hdef : (sArg.getD adj.settings).is_default = true
    · simp [hdef, Pure.pure, Except.pure, Except.isOk, Except.toBool]
    · rw [if_neg hdef, hm, except_ok_bind, hM, except_ok_bind, hc,
        except_ok_bind]
      simp [Pure.pure, Except.pure, Except.isOk, Except.toBool]
  · subst h1
    simp only [ImageAdjuster.apply_adjustments, h2, Bind.bind,
      except_pure_bind, except_ok_bind]
    by_cases hdef : (sArg.getD adj.settings).is_default = true
    · simp [hdef, Pure.pure, Except.pure, Except.isOk, Except.toBool]
    · rw [if_neg hdef, hm, except_ok_bind, hM, except_ok_bind, hc,
        except_ok_bind]
      simp [Pure.pure, Except.pure, Except.isOk, Except.toBool]

/-- C4 (corrected claim's counterexample): the claim says apply_adjustments
never raises once a volume is available, but `gamma = 0.0` makes the Python
expression `1.0 / gamma` raise `ZeroDivisionError` even with a volume
supplied. -/
theorem C4_counterexample :
    ImageAdjuster.init.apply_adjustments rpow0 blur30 (some ⟨[[1, 2]], .uint8⟩)
      (some { gamma := 0 }) =
      .error "ZeroDivisionError: float division by zero" := by
  have hd : ({ gamma := 0 : AdjustmentSettings }).is_default = false :=
    is_default_eq_false _ (by norm_num)
  obtain ⟨m, hm⟩ := refMin_ok none ⟨[[1, 2]], .uint8⟩ (Or.inr (by simp))
  obtain ⟨M, hM⟩ := refMax_ok none ⟨[[1, 2]], .uint8⟩ (Or.inr (by simp))
  simp only [ImageAdjuster.apply_adjustments, ImageAdjuster.init,
    Option.getD_some, Bind.bind, except_pure_bind, except_ok_bind, hd,
    Bool.false_eq_true, if_false]
  rw [hm, except_ok_bind, hM, except_ok_bind,
    adjustCore3_gamma_zero _ _ _ _ _ _ rfl]
  rfl

/-- C4 (amended): the precondition `ValueError` is raised exactly as the
claim says when no volume is given and none is registered (first conjunct);
but it is not the only exceptional state: with a volume available the call
succeeds provided `gamma ≠ 0` and the reference range is cached or the
volume nonempty (second conjunct), while `gamma = 0` — an out-of-documented
-domain but accepted settings value — always fails on the division
`1.0 / gamma` (third conjunct). -/
theorem C4_error_conditions :
    (∀ (rpow : ℚ → ℚ → ℚ) (blur3 : List (List ℚ) → List (List ℚ))
        (adj : ImageAdjuster) (sArg : Option AdjustmentSettings),
      adj.original_volume = none →
      adj.apply_adjustments rpow blur3 none sArg =
        .error "ValueError: No volume provided and no original volume stored") ∧
    (∀ (rpow : ℚ → ℚ → ℚ) (blur3 : List (List ℚ) → List (List ℚ))
        (adj : ImageAdjuster) (volArg : Option Arr3)
        (sArg : Option AdjustmentSettings) (v : Arr3),
      (volArg = some v ∨ (volArg = none ∧ adj.original_volume = some v)) →
      (sArg.getD adj.settings).gamma ≠ 0 →
      ((adj.original_min.isSome = true ∧ adj.original_max.isSome = true) ∨
        v.data.flatten ≠ []) →
      (adj.apply_adjustments rpow blur3 volArg sArg).isOk = true) ∧
    (∀ (rpow : ℚ → ℚ → ℚ) (blur3 : List (List ℚ) → List (List ℚ))
        (adj : ImageAdjuster) (volArg : Option Arr3)
        (sArg : Option AdjustmentSettings) (v : Arr3),
      (volArg = some v ∨ (volArg = none ∧ adj.original_volume = some v)) →
      (sArg.getD adj.settings).is_default = false →
      (sArg.getD adj.settings).gamma = 0 →
      (adj.apply_adjustments rpow blur3 volArg sArg).isOk = false) := by
  refine ⟨?_, apply_adjustments_isOk, ?_⟩
  · intro rpow blur3 adj sArg h
    simp [ImageAdjuster.apply_adjustments, h, Bind.bind, Except.bind]
  · intro rpow blur3 adj volArg sArg v hv hnd hg0
    have hdef : ¬((sArg.getD adj.settings).is_default = true) := by
      simp [hnd]
    rcases hv with h | ⟨h1, h2⟩
    · subst h
      simp only [ImageAdjuster.apply_adjustments, Bind.bind, except_pure_bind,
        except_ok_bind]
      rw [if_neg hdef]
      cases hm : refMin adj.original_min v with
      | error e => rfl
      | ok m =>
        rw [except_ok_bind]
        cases hM : refMax adj.original_max v with
        | error e => rfl
        | ok M =>
          rw [except_ok_bind, adjustCore3_gamma_zero _ _ _ _ _ _ hg0]
          rfl
    · subst h1
      simp only [ImageAdjuster.apply_adjustments, h2, Bind.bind,
        except_pure_bind, except_ok_bind]
      rw [if_neg hdef]
      cases hm : refMin adj.original_min v with
      | error e => rfl
      | ok m =>
        rw [except_ok_bind]
        cases hM : refMax adj.original_max v with
        | error e => rfl
        | ok M =>
          rw [except_ok_bind, adjustCore3_gamma_zero _ _ _ _ _ _ hg0]
          rfl

/-- Witness for C4 at concrete states: precondition error on a fresh
adjuster, success with a registered volume and in-domain settings, failure
at `gamma = 0`. -/
theorem C4_witness :
    ImageAdjuster.init.apply_adjustments rpow0 blur30 none none =
      .error "ValueError: No volume provided and no original volume stored" ∧
    ((ImageAdjuster.init.set_original_volume ⟨[[5]], .uint8⟩).apply_adjustments
        rpow0 blur30 none (some { invert := true })).isOk = true ∧
    (ImageAdjuster.init.apply_adjustments rpow0 blur30 (some ⟨[[1, 2]], .uint8⟩)
        (some { gamma := 0 })).isOk = false := by
  refine ⟨C4_error_conditions.1 rpow0 blur30 ImageAdjuster.init none rfl,
    ?_, ?_⟩
  · exact C4_error_conditions.2.1 rpow0 blur30 _ none _ ⟨[[5]], .uint8⟩
      (Or.inr ⟨rfl, rfl⟩) (by norm_num) (Or.inl ⟨rfl, rfl⟩)
  · exact C4_error_conditions.2.2 rpow0 blur30 _ _ _ ⟨[[1, 2]], .uint8⟩
      (Or.inl rfl) (is_default_eq_false _ (by norm_num)) rfl

/-- C7: with a degenerate reference range (`max == min`) the normalization
blocks of both apply paths return an all-zero field of the same shape
without any division (first two conjuncts); registering a constant volume
caches exactly that degenerate range (third conjunct); and the apply path
then still succeeds — no division error — for any settings with
`gamma ≠ 0` (fourth conjunct). -/
theorem C7_degenerate_range_all_zero :
    (∀ (m : ℚ) (a : List ℚ),
      normalize2 m m a = a.map (fun _ => 0) ∧
      (normalize2 m m a).length = a.length) ∧
    (∀ (m : ℚ) (d : List (List ℚ)),
      normalize3 m m d = d.map (fun sl => sl.map (fun _ => 0)) ∧
      (normalize3 m m d).map List.length = d.map List.length ∧
      ∀ x ∈ (normalize3 m m d).flatten, x = 0) ∧
    (∀ (adj : ImageAdjuster) (v : Arr3) (c : ℚ),
      v.data.flatten ≠ [] → (∀ x ∈ v.data.flatten, x = c) →
      (adj.set_original_volume v).original_min = some c ∧
      (adj.set_original_volume v).original_max = some c) ∧
    (∀ (rpow : ℚ → ℚ → ℚ) (blur3 : List (List ℚ) → List (List ℚ))
        (adj : ImageAdjuster) (v : Arr3) (sArg : Option AdjustmentSettings)
        (c : ℚ),
      adj.original_min = some c → adj.original_max = some c →
      (sArg.getD adj.settings).gamma ≠ 0 →
      (adj.apply_adjustments rpow blur3 (some v) sArg).isOk = true) := by
  refine ⟨?_, ?_, ?_, ?_⟩
  · intro m a
    constructor
    · unfold normalize2
      rw [if_pos rfl]
    · unfold normalize2
      rw [if_pos rfl, List.length_map]
  · intro m d
    have heq : normalize3 m m d = d.map (fun sl => sl.map (fun _ => 0)) := by
      unfold normalize3
      rw [if_pos rfl]
    refine ⟨heq, by rw [heq]; simp, ?_⟩
    intro x hx
    rw [heq] at hx
    simp only [List.mem_flatten, List.mem_map] at hx
    rcases hx with ⟨sl, ⟨sl0, -, rfl⟩, hx⟩
    rcases List.mem_map.mp hx with ⟨y, -, h0⟩
    rw [← h0]
  · intro adj v c hne hc
    unfold ImageAdjuster.set_original_volume
    exact ⟨by rw [amin_const c v.data.flatten hne hc],
      by rw [amax_const c v.data.flatten hne hc]⟩
  · intro rpow blur3 adj v sArg c hmin hmax hg
    exact apply_adjustments_isOk rpow blur3 adj (some v) sArg v (Or.inl rfl)
      hg (Or.inl ⟨by simp [hmin], by simp [hmax]⟩)

/-- Witness for C7 on a concrete constant volume. -/
theorem C7_witness :
    normalize2 5 5 [1, 2] = [0, 0] ∧
    (ImageAdjuster.init.set_original_volume
      ⟨[[7, 7], [7]], .uint8⟩).original_min = some 7 ∧
    (ImageAdjuster.init.set_original_volume
      ⟨[[7, 7], [7]], .uint8⟩).original_max = some 7 ∧
    ((ImageAdjuster.init.set_original_volume
        ⟨[[7, 7], [7]], .uint8⟩).apply_adjustments rpow0 blur30
      (some ⟨[[7, 7], [7]], .uint8⟩) (some { invert := true })).isOk = true := by
  have hconst : ∀ x ∈ (⟨[[7, 7], [7]], .uint8⟩ : Arr3).data.flatten, x = 7 := by
    intro x hx
    simp [List.flatten] at hx
    exact hx
  have hreg := C7_degenerate_range_all_zero.2.2.1 ImageAdjuster.init
    ⟨[[7, 7], [7]], .uint8⟩ 7 (by simp [List.flatten]) hconst
  refine ⟨(C7_degenerate_range_all_zero.1 5 [1, 2]).1.trans (by simp),
    hreg.1, hreg.2, ?_⟩
  exact C7_degenerate_range_all_zero.2.2.2 rpow0 blur30 _ _ _ 7 hreg.1 hreg.2
    (by norm_num)

/-- Every integer dtype's representable range contains zero. -/
theorem iinfo_signs (d : Dtype) (hint : d.isInteger = true) :
    d.iinfoMin ≤ 0 ∧ 0 ≤ d.iinfoMax := by
  cases d <;> simp [Dtype.isInteger] at hint ⊢ <;>
    norm_num [Dtype.iinfoMin, Dtype.iinfoMax]

/-- The integer dtype restore clamps into the representable range and
truncates, so outputs are integers inside that range, and the dtype tag is
restored. -/
theorem dtypeRestore_int_bounds (d : Dtype) (hint : d.isInteger = true)
    (c : List (List ℚ)) :
    (dtypeRestore (some d) c).dtype = d ∧
    ∀ x ∈ (dtypeRestore (some d) c).data.flatten,
      d.iinfoMin ≤ x ∧ x ≤ d.iinfoMax ∧ ∃ n : ℤ, x = (n : ℚ) := by
  obtain ⟨hlo, hhi⟩ := iinfo_signs d hint
  constructor
  · simp [dtypeRestore]
  · intro x hx
    simp only [dtypeRestore, hint, if_true] at hx
    rw [List.mem_flatten] at hx
    obtain ⟨sl, hsl, hxsl⟩ := hx
    rw [List.mem_map] at hsl
    obtain ⟨sl0, hsl0, rfl⟩ := hsl
    rw [List.mem_map] at hxsl
    obtain ⟨y, hy, rfl⟩ := hxsl
    rw [List.mem_map] at hsl0
    obtain ⟨sl1, -, rfl⟩ := hsl0
    rw [List.mem_map] at hy
    obtain ⟨z, -, rfl⟩ := hy
    obtain ⟨hc1, hc2⟩ := clip_mem z d.iinfoMin d.iinfoMax (hlo.trans hhi)
    unfold Dtype.cast
    rw [if_pos hint]
    obtain ⟨ht1, ht2⟩ :=
      trunc_in_range d.iinfoMin d.iinfoMax (clip z d.iinfoMin d.iinfoMax)
        hlo hhi hc1 hc2
    exact ⟨ht1, ht2, truncQ (clip z d.iinfoMin d.iinfoMax), rfl⟩

/-- Any successful non-default `apply_adjustments` result is a dtype
restore of some pipeline output. -/
theorem apply_adjustments_ok_shape (rpow : ℚ → ℚ → ℚ)
    (blur3 : List (List ℚ) → List (List ℚ)) (adj : ImageAdjuster)
    (volArg : Option Arr3) (sArg : Option AdjustmentSettings) (R : Arr3)
    (hnd : (sArg.getD adj.settings).is_default = false)
    (hok : adj.apply_adjustments rpow blur3 volArg sArg = .ok R) :
    ∃ core, R = dtypeRestore adj.original_dtype core := by
  have hdef : ¬((sArg.getD adj.settings).is_default = true) := by simp [hnd]
  rcases volArg with _ | v
  · rcases hvol : adj.original_volume with _ | v
    · simp [ImageAdjuster.apply_adjustments, hvol, Bind.bind,
        Except.bind] at hok
    · simp only [ImageAdjuster.apply_adjustments, hvol, Bind.bind,
        except_pure_bind, except_ok_bind] at hok
      rw [if_neg hdef] at hok
      rcases except_bind_ok _ _ _ hok with ⟨m, -, hok2⟩
      rcases except_bind_ok _ _ _ hok2 with ⟨M, -, hok3⟩
      rcases except_bind_ok _ _ _ hok3 with ⟨c, -, hp⟩
      simp only [Pure.pure, Except.pure, Except.ok.injEq] at hp
      exact ⟨c, hp.symm⟩
  · simp only [ImageAdjuster.apply_adjustments, Bind.bind, except_pure_bind,
      except_ok_bind] at hok
    rw [if_neg hdef] at hok
    rcases except_bind_ok _ _ _ hok with ⟨m, -, hok2⟩
    rcases except_bind_ok _ _ _ hok2 with ⟨M, -, hok3⟩
    rcases except_bind_ok _ _ _ hok3 with ⟨c, -, hp⟩
    simp only [Pure.pure, Except.pure, Except.ok.injEq] at hp
    exact ⟨c, hp.symm⟩

/-- C3: dtype fidelity.  (1) For a registered uint8 volume with values in
[0, 255] every successful apply keeps values in [0, 255], integral, with
the uint8 dtype restored.  (2) In general, with an integer registered dtype
the non-default path clamps into that dtype's representable range before
casting, so results are integers in range with the dtype restored.
(3) With a floating registered dtype the pipeline output is cast back with
no extra clamping: the result is exactly the denormalized pipeline field,
only retagged. -/
theorem C3_dtype_fidelity :
    (∀ (rpow : ℚ → ℚ → ℚ) (blur3 : List (List ℚ) → List (List ℚ))
        (adj0 : ImageAdjuster) (v : Arr3) (sArg : Option AdjustmentSettings)
        (R : Arr3),
      v.dtype = .uint8 →
      (∀ x ∈ v.data.flatten, 0 ≤ x ∧ x ≤ 255 ∧ ∃ n : ℤ, x = (n : ℚ)) →
      (adj0.set_original_volume v).apply_adjustments rpow blur3 none sArg =
        .ok R →
      R.dtype = .uint8 ∧
        ∀ x ∈ R.data.flatten, 0 ≤ x ∧ x ≤ 255 ∧ ∃ n : ℤ, x = (n : ℚ)) ∧
    (∀ (rpow : ℚ → ℚ → ℚ) (blur3 : List (List ℚ) → List (List ℚ))
        (adj : ImageAdjuster) (volArg : Option Arr3)
        (sArg : Option AdjustmentSettings) (R : Arr3) (d : Dtype),
      adj.original_dtype = some d → d.isInteger = true →
      (sArg.getD adj.settings).is_default = false →
      adj.apply_adjustments rpow blur3 volArg sArg = .ok R →
      R.dtype = d ∧
        ∀ x ∈ R.data.flatten,
          d.iinfoMin ≤ x ∧ x ≤ d.iinfoMax ∧ ∃ n : ℤ, x = (n : ℚ)) ∧
    (∀ (rpow : ℚ → ℚ → ℚ) (blur3 : List (List ℚ) → List (List ℚ))
        (adj : ImageAdjuster) (v : Arr3) (s : AdjustmentSettings)
        (lo hi : ℚ) (d : Dtype),
      adj.original_dtype = some d → d.isInteger = false →
      adj.original_min = some lo → adj.original_max = some hi →
      s.is_default = false →
      adj.apply_adjustments rpow blur3 (some v) (some s) =
        (adjustCore3 rpow blur3 s lo hi v.data).map
          (fun c => (⟨c, d⟩ : Arr3))) := by
  have part2 : ∀ (rpow : ℚ → ℚ → ℚ) (blur3 : List (List ℚ) → List (List ℚ))
      (adj : ImageAdjuster) (volArg : Option Arr3)
      (sArg : Option AdjustmentSettings) (R : Arr3) (d : Dtype),
      adj.original_dtype = some d → d.isInteger = true →
      (sArg.getD adj.settings).is_default = false →
      adj.apply_adjustments rpow blur3 volArg sArg = .ok R →
      R.dtype = d ∧
        ∀ x ∈ R.data.flatten,
          d.iinfoMin ≤ x ∧ x ≤ d.iinfoMax ∧ ∃ n : ℤ, x = (n : ℚ) := by
    intro rpow blur3 adj volArg sArg R d hd hint hnd hok
    obtain ⟨c, hR⟩ :=
      apply_adjustments_ok_shape rpow blur3 adj volArg sArg R hnd hok
    rw [hd] at hR
    subst hR
    exact dtypeRestore_int_bounds d hint c
  refine ⟨?_, part2, ?_⟩
  · intro rpow blur3 adj0 v sArg R hv hbounds hok
    by_cases hdef : (sArg.getD adj0.settings).is_default = true
    · have hfast : (adj0.set_original_volume v).apply_adjustments rpow blur3
          none sArg = .ok v := by
        simp [ImageAdjuster.apply_adjustments,
          ImageAdjuster.set_original_volume, hdef, Bind.bind, Except.bind,
          Pure.pure, Except.pure]
      rw [hfast] at hok
      simp only [Except.ok.injEq] at hok
      subst hok
      exact ⟨hv, hbounds⟩
    · have hdt : (adj0.set_original_volume v).original_dtype =
          some Dtype.uint8 := by
        simp [ImageAdjuster.set_original_volume, hv]
      have h2 := part2 rpow blur3 _ none sArg R .uint8 hdt rfl
        (Bool.eq_false_iff.mpr hdef) hok
      refine ⟨h2.1, fun x hx => ?_⟩
      simpa [Dtype.iinfoMin, Dtype.iinfoMax] using h2.2 x hx
  · intro rpow blur3 adj v s lo hi d hd hdf hlo hhi hs
    rw [apply_adjustments_core rpow blur3 adj v s lo hi hlo hhi hs, hd]
    cases h : adjustCore3 rpow blur3 s lo hi v.data <;>
      simp [h, Except.map, dtypeRestore_float d hdf]

/-- Witness for C3 on a concrete uint8 volume and brightness-only
settings. -/
theorem C3_witness :
    (ImageAdjuster.init.set_original_volume
        ⟨[[0, 255, 100]], .uint8⟩).apply_adjustments rpow0 blur30 none
      (some { brightness := 10 }) = .ok ⟨[[25, 255, 125]], .uint8⟩ ∧
    (⟨[[25, 255, 125]], .uint8⟩ : Arr3).dtype = .uint8 ∧
    ∀ x ∈ (⟨[[25, 255, 125]], .uint8⟩ : Arr3).data.flatten,
      0 ≤ x ∧ x ≤ 255 ∧ ∃ n : ℤ, x = (n : ℚ) := by
  have hd : ({ brightness := 10 : AdjustmentSettings }).is_default = false :=
    is_default_eq_false _ (by norm_num)
  have hb : ∀ x ∈ (⟨[[0, 255, 100]], .uint8⟩ : Arr3).data.flatten,
      0 ≤ x ∧ x ≤ 255 ∧ ∃ n : ℤ, x = (n : ℚ) := by
    intro x hx
    simp [List.flatten] at hx
    rcases hx with rfl | rfl | rfl
    · exact ⟨by norm_num, by norm_num, 0, by norm_num⟩
    · exact ⟨by norm_num, by norm_num, 255, by norm_num⟩
    · exact ⟨by norm_num, by norm_num, 100, by norm_num⟩
  have e1 : (ImageAdjuster.init.set_original_volume
      ⟨[[0, 255, 100]], .uint8⟩).apply_adjustments rpow0 blur30 none
      (some { brightness := 10 }) = .ok ⟨[[25, 255, 125]], .uint8⟩ := by
    simp only [ImageAdjuster.apply_adjustments,
      ImageAdjuster.set_original_volume, ImageAdjuster.init, Option.getD_some,
      hd, Bool.false_eq_true, if_false, refMin, refMax, adjustCore3,
      normalize3, apply_brightness3, apply_contrast3, apply_gamma3,
      apply_sharpness3, apply_invert3, denorm3, dtypeRestore, normPix,
      denormPix, clip, gammaPix, amin, amax, List.flatten, List.foldl,
      List.map, List.zip, Bind.bind, Except.bind, Pure.pure, Except.pure]
    norm_num [min_def, max_def, normPix, denormPix, Dtype.cast,
      Dtype.isInteger, Dtype.iinfoMin, Dtype.iinfoMax, truncQ]
  have h := C3_dtype_fidelity.1 rpow0 blur30 ImageAdjuster.init
    ⟨[[0, 255, 100]], .uint8⟩ (some { brightness := 10 })
    ⟨[[25, 255, 125]], .uint8⟩ rfl hb e1
  exact ⟨e1, h.1, h.2⟩

/-- C2 (claim counterexample): for a registered uint8 volume and brightness
10, the slice preview returns the float32 field `[25.5, 255, 125.5]` while
the corresponding slice of the volume result is the uint8 `[25, 255, 125]`
— `apply_to_slice` is not the slice of `apply_adjustments` because only the
volume path casts back to the original dtype. -/
theorem C2_counterexample :
    ¬((ImageAdjuster.init.set_original_volume
        ⟨[[0, 255, 100]], .uint8⟩).apply_to_slice rpow0 blur20
        ⟨[0, 255, 100], .uint8⟩ (some { brightness := 10 }) =
      ((ImageAdjuster.init.set_original_volume
          ⟨[[0, 255, 100]], .uint8⟩).apply_adjustments rpow0 blur30
        (some ⟨[[0, 255, 100]], .uint8⟩) (some { brightness := 10 })).map
        (fun R => (⟨R.data.getD 0 [], R.dtype⟩ : Arr2))) := by
  have hd : ({ brightness := 10 : AdjustmentSettings }).is_default = false :=
    is_default_eq_false _ (by norm_num)
  have e1 : (ImageAdjuster.init.set_original_volume
      ⟨[[0, 255, 100]], .uint8⟩).apply_to_slice rpow0 blur20
      ⟨[0, 255, 100], .uint8⟩ (some { brightness := 10 }) =
      .ok ⟨[51/2, 255, 251/2], .float32⟩ := by
    simp only [ImageAdjuster.apply_to_slice, ImageAdjuster.set_original_volume,
      ImageAdjuster.init, Option.getD_some, hd, Bool.false_eq_true, if_false,
      adjustCore2, normalize2, apply_brightness, apply_contrast,
      apply_gamma, apply_sharpness, apply_invert, denorm2,
      normPix, denormPix, clip, gammaPix, amin, amax, List.flatten,
      List.foldl, List.map, List.zip, Bind.bind, Except.bind, Pure.pure,
      Except.pure]
    norm_num [min_def, max_def, normPix, denormPix]
  have e2 : (ImageAdjuster.init.set_original_volume
      ⟨[[0, 255, 100]], .uint8⟩).apply_adjustments rpow0 blur30
      (some ⟨[[0, 255, 100]], .uint8⟩) (some { brightness := 10 }) =
      .ok ⟨[[25, 255, 125]], .uint8⟩ := by
    simp only [ImageAdjuster.apply_adjustments,
      ImageAdjuster.set_original_volume, ImageAdjuster.init, Option.getD_some,
      hd, Bool.false_eq_true, if_false, refMin, refMax, adjustCore3,
      normalize3, apply_brightness3, apply_contrast3, apply_gamma3,
      apply_sharpness3, apply_invert3, denorm3, dtypeRestore, normPix,
      denormPix, clip, gammaPix, amin, amax, List.flatten, List.foldl,
      List.map, List.zip, Bind.bind, Except.bind, Pure.pure, Except.pure]
    norm_num [min_def, max_def, normPix, denormPix, Dtype.cast,
      Dtype.isInteger, Dtype.iinfoMin, Dtype.iinfoMax, truncQ]
  rw [e1, e2]
  simp [Except.map, Arr2.mk.injEq]

/-- C2 (amended): preview/final consistency does hold in the situation the
spec's shared-reference-range argument actually covers — a cached reference
range, a floating (float32) registered dtype (so the volume path's final
cast is value-preserving) and `sharpness = 0` (so no stage couples
neighbouring slices; the 3D Gaussian blur otherwise mixes slices) — for
every slice index and every non-default settings value with `gamma ≠ 0`. -/
theorem C2_preview_final_consistency_float :
    ∀ (rpow : ℚ → ℚ → ℚ) (blur2 : List ℚ → List ℚ)
      (blur3 : List (List ℚ) → List (List ℚ)) (adj : ImageAdjuster)
      (v : Arr3) (s : AdjustmentSettings) (i : ℕ) (lo hi : ℚ),
      adj.original_min = some lo → adj.original_max = some hi →
      adj.original_dtype = some .float32 →
      s.is_default = false → s.sharpness = 0 → s.gamma ≠ 0 →
      i < v.data.length →
      adj.apply_to_slice rpow blur2 ⟨v.data.getD i [], v.dtype⟩ (some s) =
        (adj.apply_adjustments rpow blur3 (some v) (some s)).map
          (fun R => (⟨R.data.getD i [], R.dtype⟩ : Arr2)) := by
  intro rpow blur2 blur3 adj v s i lo hi hlo hhi hdt hnd hsh hg hilen
  rw [apply_to_slice_core rpow blur2 adj _ s lo hi hlo hhi hnd,
    apply_adjustments_core rpow blur3 adj v s lo hi hlo hhi hnd, hdt,
    adjustCore3_slicewise rpow blur3 s lo hi v.data hsh hg,
    adjustCore2_coreSlice rpow blur2 s lo hi _ hsh hg]
  simp only [Except.map, dtypeRestore_float Dtype.float32 rfl]
  rw [getD_map_of_lt (coreSlice rpow s lo hi) v.data i hilen [] []]

/-- Witness for the amended C2 on a concrete float32 volume. -/
theorem C2_witness :
    (ImageAdjuster.init.set_original_volume
        ⟨[[0, 2], [1, 2]], .float32⟩).apply_to_slice rpow0 blur20
      ⟨(⟨[[0, 2], [1, 2]], .float32⟩ : Arr3).data.getD 1 [], .float32⟩
      (some { brightness := 50 }) =
    ((ImageAdjuster.init.set_original_volume
        ⟨[[0, 2], [1, 2]], .float32⟩).apply_adjustments rpow0 blur30
      (some ⟨[[0, 2], [1, 2]], .float32⟩) (some { brightness := 50 })).map
      (fun R => (⟨R.data.getD 1 [], R.dtype⟩ : Arr2)) := by
  have hmin : (ImageAdjuster.init.set_original_volume
      ⟨[[0, 2], [1, 2]], .float32⟩).original_min = some 0 := by
    simp only [ImageAdjuster.set_original_volume, ImageAdjuster.init,
      List.flatten, amin, List.foldl, List.append_nil, List.cons_append,
      List.nil_append, Option.some.injEq]
    norm_num [min_def]
  have hmax : (ImageAdjuster.init.set_original_volume
      ⟨[[0, 2], [1, 2]], .float32⟩).original_max = some 2 := by
    simp only [ImageAdjuster.set_original_volume, ImageAdjuster.init,
      List.flatten, amax, List.foldl, List.append_nil, List.cons_append,
      List.nil_append, Option.some.injEq]
    norm_num [max_def]
  exact C2_preview_final_consistency_float rpow0 blur20 blur30 _
    ⟨[[0, 2], [1, 2]], .float32⟩ { brightness := 50 } 1 0 2 hmin hmax rfl
    (is_default_eq_false _ (by norm_num)) rfl (by norm_num) (by norm_num)

/-- C1 (code bug): the settings round-trip fails for every settings value,
timestamp and metadata — importing any exported file returns the not-found
signal `none` instead of the settings.  The Parameter Descriptions block
written by the export (line `  Brightness:  Shifts all pixel values (-100
to +100)`) matches the parser's recognized `Brightness:` prefix, its text
fails `float` parsing, and the resulting exception aborts the whole load. -/
theorem C1_roundtrip_always_returns_none :
    ∀ (s : AdjustmentSettings) (timestamp : String)
      (volume_info : List (String × String)),
      load_adjustment_settings
        (some (export_lines s timestamp volume_info)) = none := by
  intro s ts info
  have hparse : ∀ st : AdjustmentSettings,
      parse_line st
        "  Brightness:  Shifts all pixel values (-100 to +100)" = none := by
    intro st
    have hc : startsWithChars
        (pyStrip "  Brightness:  Shifts all pixel values (-100 to +100)".data)
        "Brightness:".data = true := by decide
    have hp : parsePyFloat (afterColon
        (pyStrip
          "  Brightness:  Shifts all pixel values (-100 to +100)".data)) =
        none := by decide
    simp [parse_line, hc, hp]
  have hmem : "  Brightness:  Shifts all pixel values (-100 to +100)" ∈
      export_lines s ts info := by
    unfold export_lines
    refine List.mem_append.mpr (Or.inr ?_)
    unfold exportDescBlock
    decide
  exact load_loop_none_of_mem _ hparse _ hmem {}

/-- C8: persistence error signalling.  Export returns the failure value
`False` (never a raised fault) on an unwritable destination and `True` with
the file content otherwise; an unreadable source makes the import return
the not-found signal `none`; and any line carrying one of the recognized
numeric prefixes whose field does not parse as a float makes the whole
load return `none` — never a partially populated settings value. -/
theorem C8_persistence_error_signalling :
    (∀ (s : AdjustmentSettings) (ts : String)
        (info : List (String × String)),
      export_adjustment_settings false s ts info = (false, none)) ∧
    (∀ (s : AdjustmentSettings) (ts : String)
        (info : List (String × String)),
      export_adjustment_settings true s ts info =
        (true, some (export_lines s ts info))) ∧
    load_adjustment_settings none = none ∧
    (∀ (pre post : List String) (line : String),
      (startsWithChars (pyStrip line.data) "Brightness:".data = true ∨
        startsWithChars (pyStrip line.data) "Contrast:".data = true ∨
        startsWithChars (pyStrip line.data) "Gamma:".data = true ∨
        startsWithChars (pyStrip line.data) "Sharpness:".data = true) →
      parsePyFloat (afterColon (pyStrip line.data)) = none →
      load_adjustment_settings (some (pre ++ line :: post)) = none) := by
  refine ⟨fun s ts info => rfl, fun s ts info => rfl, rfl, ?_⟩
  intro pre post line hrec hnp
  have hparse : ∀ st : AdjustmentSettings, parse_line st line = none := by
    intro st
    rcases hrec with h | h | h | h
    · simp [parse_line, h, hnp]
    · have hB : startsWithChars (pyStrip line.data) "Brightness:".data =
          false :=
        startsWith_head_ne (pyStrip line.data) 'C' 'B' "ontrast:".data
          "rightness:".data (by decide) h
      simp [parse_line, hB, h, hnp]
    · have hB : startsWithChars (pyStrip line.data) "Brightness:".data =
          false :=
        startsWith_head_ne (pyStrip line.data) 'G' 'B' "amma:".data
          "rightness:".data (by decide) h
      have hC : startsWithChars (pyStrip line.data) "Contrast:".data =
          false :=
        startsWith_head_ne (pyStrip line.data) 'G' 'C' "amma:".data
          "ontrast:".data (by decide) h
      simp [parse_line, hB, hC, h, hnp]
    · have hB : startsWithChars (pyStrip line.data) "Brightness:".data =
          false :=
        startsWith_head_ne (pyStrip line.data) 'S' 'B' "harpness:".data
          "rightness:".data (by decide) h
      have hC : startsWithChars (pyStrip line.data) "Contrast:".data =
          false :=
        startsWith_head_ne (pyStrip line.data) 'S' 'C' "harpness:".data
          "ontrast:".data (by decide) h
      have hG : startsWithChars (pyStrip line.data) "Gamma:".data = false :=
        startsWith_head_ne (pyStrip line.data) 'S' 'G' "harpness:".data
          "amma:".data (by decide) h
      simp [parse_line, hB, hC, hG, h, hnp]
  have hmem : line ∈ pre ++ line :: post :=
    List.mem_append.mpr (Or.inr (List.mem_cons_self _ _))
  exact load_loop_none_of_mem _ hparse _ hmem {}

/-- Witness for C8: a failing export, an unreadable import, and a file
whose `Brightness:` line carries an unparsable field. -/
theorem C8_witness :
    export_adjustment_settings false {} "2024-01-01 00:00:00" [] =
      (false, none) ∧
    load_adjustment_settings none = none ∧
    load_adjustment_settings
      (some (["header"] ++ "Brightness: twelve" :: ["Contrast: 1.50"])) =
      none := by
  refine ⟨C8_persistence_error_signalling.1 {} "2024-01-01 00:00:00" [],
    C8_persistence_error_signalling.2.2.1, ?_⟩
  exact C8_persistence_error_signalling.2.2.2 ["header"] ["Contrast: 1.50"]
    "Brightness: twelve" (Or.inl (by decide)) (by decide)
